import Mathlib

/-!
# Verification of the locasploit module core

Shallow embedding of the modules under `source/modules/` of the locasploit
repository (`analysis_iot.py`, `packages_dpkg_installed.py`,
`locasploit_update_vulnerabilities.py`) together with proofs about the
version-accuracy truncation algorithm, alias expansion, module `check`
confidence aggregation, frame properties of `check`, and the background
update thread's scheduler registrations.

Python strings are embedded as `List Char` where character-level operations
(`partition`, `isdigit`, `replace`) matter, and as `String` elsewhere.
-/

set_option autoImplicit false

namespace Locasploit

/-- Python `s.partition(c)` for a single-character separator, on `List Char`:
returns `(before, sep, after)` split at the first occurrence of `c`; when `c`
does not occur the result is `(s, [], [])` (Python: `(s, '', '')`). -/
def pyPartition (c : Char) : List Char → List Char × List Char × List Char
  | [] => ([], [], [])
  | x :: xs =>
    if x = c then ([], [c], xs)
    else
      let r := pyPartition c xs
      (x :: r.1, r.2.1, r.2.2)

/-- Python `s.startswith(pre)` on strings, in kernel-computable form. -/
def strStarts (pre s : String) : Bool :=
  pre.toList.isPrefixOf s.toList

/-- Python `s.isdigit()` (ASCII fragment): non-empty and all characters are
decimal digits. `''.isdigit()` is `False` in Python, matched here. -/
def pyIsdigit (s : List Char) : Bool :=
  !s.isEmpty && s.all Char.isDigit

/-- Epoch handling of `Module.get_accurate_version`
(`analysis_iot.py` lines 432-437): with `use_epoch` every colon is replaced
by a period (`version.replace(':', '.')`); otherwise, when a colon occurs,
everything up to and including the first colon is dropped
(`version.partition(':')[2]`). -/
def epoch_fold (use_epoch : Bool) (version : List Char) : List Char :=
  if use_epoch then
    version.map (fun c => if c = ':' then '.' else c)
  else
    if version.contains ':' then (pyPartition ':' version).2.2
    else version

/-- The truncation body of `Module.get_accurate_version`
(`analysis_iot.py` lines 439-451) after the epoch fold: `'none'` was already
handled; for `'major'`/`'minor'`/`'build'` the version is rebuilt from the
dot-separated components (each truncated at its first hyphen where the code
does so), and any other accuracy (in particular `'full'`) returns the version
unchanged. -/
def truncate_body (accuracy : String) (version : List Char) : List Char :=
  if accuracy = "major" ∨ accuracy = "minor" ∨ accuracy = "build" then
    let majorparts := pyPartition '.' version
    let version :=
      if (accuracy = "major" ∨ accuracy = "minor" ∨ accuracy = "build")
          ∧ pyIsdigit majorparts.1 then
        (pyPartition '-' majorparts.1).1
      else version
    let minorparts := pyPartition '.' majorparts.2.2
    let version :=
      if (accuracy = "minor" ∨ accuracy = "build") ∧ minorparts.1 ≠ [] then
        majorparts.1 ++ '.' :: (pyPartition '-' minorparts.1).1
      else version
    let buildparts := pyPartition '.' minorparts.2.2
    let version :=
      if accuracy = "build" ∧ buildparts.1 ≠ [] then
        majorparts.1 ++ '.' :: minorparts.1 ++ '.' :: (pyPartition '-' buildparts.1).1
      else version
    version
  else version

/-- `Module.get_accurate_version(accuracy, version, use_epoch)` of
`analysis_iot.py` (lines 431-451): epoch fold, then `''` for accuracy
`'none'`, then the truncation body. -/
def get_accurate_version (accuracy : String) (version : List Char) (use_epoch : Bool) :
    List Char :=
  let version := epoch_fold use_epoch version
  if accuracy = "none" then []
  else truncate_body accuracy version

/-! ## Package observations and alias expansion -/

/-- A package observation, the triple `(name, variant, version)` that the
package-enumeration modules stage (e.g. `packages_dpkg_installed.py` line 87,
`analysis_iot.py` line 343). -/
structure Pkg where
  name : String
  variant : Option String
  version : String
deriving DecidableEq, Repr

/-- The inner loop of `Module.get_alias_packages` (`analysis_iot.py` lines
422-427) for one alias group `k`: scan the packages in order; at the first
`p` whose name is in `k`, synthesize one observation per other name of the
group, copying `p`'s variant and version, and stop (`break`). Returns the
pair (synthesized names, synthesized observations). -/
def alias_for_group (k : List String) : List Pkg → List String × List Pkg
  | [] => ([], [])
  | p :: ps =>
    if p.name ∈ k then
      let aliases := (k.filter (fun x => x ≠ p.name)).map
        (fun x => Pkg.mk x p.variant p.version)
      (aliases.map Pkg.name, aliases)
    else alias_for_group k ps

/-- `Module.get_alias_packages(packages, known)` of `analysis_iot.py`
(lines 418-428): accumulate, over the alias groups in order, the names and
observations synthesized by the first matching package of each group. -/
def get_alias_packages (packages : List Pkg) : List (List String) → List String × List Pkg
  | [] => ([], [])
  | k :: ks =>
    let c := alias_for_group k packages
    let r := get_alias_packages packages ks
    (c.1 ++ r.1, c.2 ++ r.2)

/-! ## Confidence scale and module state

The `CHECK_*` constants live in `source/libs/define.py`, which is not part
of the sources under verification; the scale is modelled from the spec. -/

/-- Modelled from the spec: the 4-level ordered confidence scale
`FAILURE < UNLIKELY < PROBABLY < SUCCESS` (`CHECK_FAILURE`,
`CHECK_UNLIKELY`, `CHECK_PROBABLY`, `CHECK_SUCCESS` of
`source/libs/define.py`, absent from the sources). -/
inductive Confidence where
  | FAILURE
  | UNLIKELY
  | PROBABLY
  | SUCCESS
deriving DecidableEq, Repr

/-- Numeric rank of a confidence level, reflecting the order of the
`CHECK_*` integer constants. -/
def Confidence.toNat : Confidence → Nat
  | .FAILURE => 0
  | .UNLIKELY => 1
  | .PROBABLY => 2
  | .SUCCESS => 3

/-- Python `min` on two confidence values (via their numeric rank). -/
def cmin (a b : Confidence) : Confidence :=
  if a.toNat ≤ b.toNat then a else b

/-- Modelled from the spec: `positive(v)` of `source/libs/support.py`
(absent from the sources) recognizes an affirmative parameter string. -/
def positive (s : String) : Bool :=
  s = "yes" || s = "y" || s = "true" || s = "t" || s = "1"

/-- Modelled from the spec: `negative(v)` of `source/libs/support.py`
(absent from the sources) recognizes a negative parameter string. -/
def negative (s : String) : Bool :=
  s = "no" || s = "n" || s = "false" || s = "f" || s = "0"

/-- A job record held by the scheduler: name, handle of the unit of work
(`None` allowed), timeout and `waitfor` list, mirroring the keyword
arguments of `lib.scheduler.add` as called in
`locasploit_update_vulnerabilities.py` (lines 118, 122, 127). -/
structure SchedJob where
  name : String
  handle : Option Nat
  timeout : Option Nat
  waitfor : Option (List Nat)
deriving DecidableEq, Repr

/-- The mutable process state visible to the embedded modules: the scratch
store `tb` (tag to records), the persistent corpus `db` (kept abstract as a
record list), the log sink, the parameter stores of all modules (keyed by
(module name, parameter name)), and the scheduler's job list. -/
structure FrameState where
  tb : List (String × List Pkg)
  db : List String
  logs : List String
  params : List ((String × String) × String)
  jobs : List SchedJob
deriving DecidableEq, Repr

/-- Append a message to the log sink (`log.err` / `log.warn` / `log.info` /
`log.ok`; only the fact that logging touches no other state matters here). -/
def logAdd (s : FrameState) (m : String) : FrameState :=
  { s with logs := s.logs ++ [m] }

/-- Write a parameter of a module (`m.parameters[p].value = v`). -/
def setParam (s : FrameState) (module param value : String) : FrameState :=
  { s with params :=
      ((module, param), value) :: s.params.filter (fun e => e.1 ≠ (module, param)) }

/-- Write a scratch-store tag (`tb[tag] = records`): last write wins. -/
def tbSet (s : FrameState) (tag : String) (v : List Pkg) : FrameState :=
  { s with tb := (tag, v) :: s.tb.filter (fun e => e.1 ≠ tag) }

/-- Modelled from the spec: `lib.scheduler.add(name, submittedAt, handle,
timeout, waitfor)` (the Scheduler of `source/libs` is absent from the
sources) registers the unit and returns its job id; job ids are positions
in the job list. -/
def schedAdd (s : FrameState) (name : String) (handle : Option Nat)
    (timeout : Option Nat) (waitfor : Option (List Nat)) : Nat × FrameState :=
  (s.jobs.length, { s with jobs := s.jobs ++ [SchedJob.mk name handle timeout waitfor] })

/-! ## Module `check` embeddings -/

/-- Environment outcomes probed by `analysis.iot`'s `check`
(`analysis_iot.py` lines 115-163): the verdict of the
`iot.binwalk.extract` sub-module's check (modelled from the spec, that
module being absent from the sources, as an oracle value; per the spec a
check is side-effect-free probing), whether `io.get_ssh_connection(target)`
finds a connection, and the `type` field of
`io.get_file_info(activeroot, target)`. -/
structure IotCheckEnv where
  ibeCheck : Confidence
  sshConnExists : Bool
  targetFileType : String
deriving DecidableEq, Repr

/-- The accuracy-membership test of `analysis_iot.py` line 159
(`accuracy in ['none', 'major', 'minor', 'build', 'full']`). -/
def accuracy_supported (accuracy : String) : Bool :=
  accuracy = "none" || accuracy = "major" || accuracy = "minor"
    || accuracy = "build" || accuracy = "full"

/-- The shared tail of `analysis.iot`'s `check` (`analysis_iot.py` lines
158-163), reached on every path that does not early-return: an unsupported
ACCURACY overwrites the verdict with FAILURE. -/
def accuracy_tail (silent : Bool) (accuracy : String) (result : Confidence)
    (s : FrameState) : Confidence × FrameState :=
  if accuracy_supported accuracy then (result, s)
  else (Confidence.FAILURE,
    if silent then s else logAdd s ("Unsupported ACCURACY " ++ accuracy))

/-- `Module.check` of `analysis_iot.py` (lines 115-163): start from
PROBABLY; fail on an unsupported METHOD; for `'image'` configure the
`iot.binwalk.extract` sub-module, fold its check verdict with `min`, and
early-return FAILURE on an invalid EXTRACT value; for `'ssh'` fail without
a connection; for `'local'` fail unless the target is a directory; finally
fail on an unsupported ACCURACY. -/
def analysis_iot_check (silent : Bool)
    (activeroot method target tmpdir accuracy extract : String)
    (env : IotCheckEnv) (s : FrameState) : Confidence × FrameState :=
  let result := Confidence.PROBABLY
  let rs :=
    if method = "local" || method = "image" || method = "ssh" then (result, s)
    else (Confidence.FAILURE,
      if silent then s else logAdd s ("Unsupported method " ++ method))
  let result := rs.1
  let s := rs.2
  if method = "image" then
    let s := setParam s "iot.binwalk.extract" "ACTIVEROOT" activeroot
    let s := setParam s "iot.binwalk.extract" "BINFILE" target
    let s := setParam s "iot.binwalk.extract" "TMPDIR" tmpdir
    let result := cmin result env.ibeCheck
    if !(positive extract || negative extract) then
      (Confidence.FAILURE,
        if silent then s else logAdd s "EXTRACT value is not valid.")
    else accuracy_tail silent accuracy result s
  else if method = "ssh" then
    let rs :=
      if env.sshConnExists then (result, s)
      else (Confidence.FAILURE,
        if silent then s else logAdd s ("Non-existent SSH connection " ++ target))
    accuracy_tail silent accuracy rs.1 rs.2
  else if method = "local" then
    let rs :=
      if env.targetFileType = "d" then (result, s)
      else (Confidence.FAILURE,
        if silent then s
        else logAdd s "Only folders can be analyzed with the local method.")
    accuracy_tail silent accuracy rs.1 rs.2
  else accuracy_tail silent accuracy result s

/-- Environment outcomes probed by `packages.dpkg.installed`'s `check`
(`packages_dpkg_installed.py` lines 49-64): the family string returned by
`get_system_type_from_active_root(activeroot)` and whether
`io.can_read(activeroot, '/var/lib/dpkg/status')` holds. -/
structure DpkgCheckEnv where
  systemType : String
  canReadStatus : Bool
deriving DecidableEq, Repr

/-- `Module.check` of `packages_dpkg_installed.py` (lines 49-64): start
from SUCCESS; degrade to UNLIKELY when the target system is not of the
Linux family; degrade to FAILURE when `/var/lib/dpkg/status` cannot be
read. -/
def packages_dpkg_installed_check (silent : Bool) (env : DpkgCheckEnv)
    (s : FrameState) : Confidence × FrameState :=
  let result := Confidence.SUCCESS
  let rs :=
    if !(strStarts "lin" env.systemType) then
      (Confidence.UNLIKELY,
        if silent then s
        else logAdd s "Target system does not belong to Linux family.")
    else (result, s)
  let result := rs.1
  let s := rs.2
  let rs :=
    if !env.canReadStatus then
      (Confidence.FAILURE,
        if silent then s else logAdd s "Cannot open /var/lib/dpkg/status file.")
    else (result, s)
  rs

/-- `Module.check` of `locasploit_update_vulnerabilities.py` (lines 49-72):
start from PROBABLY; fail on a BACKGROUND value that is neither positive
nor negative; fail when `urllib.request` cannot be imported (`urllibOk`
models the import succeeding). The source (line 54) recomputes `silent`
from the SILENT parameter regardless of the argument, mirrored here by
taking the parameter value. -/
def locasploit_update_vulnerabilities_check (silentParam background : String)
    (urllibOk : Bool) (s : FrameState) : Confidence × FrameState :=
  let result := Confidence.PROBABLY
  let silent := positive silentParam
  let rs :=
    if !(positive background || negative background) then
      (Confidence.FAILURE,
        if silent then s
        else logAdd s ("Bad BACKGROUND value: " ++ background))
    else (result, s)
  let result := rs.1
  let s := rs.2
  let rs :=
    if !urllibOk then
      (Confidence.FAILURE,
        if silent then s
        else logAdd s "Cannot import urllib.request library (urllib5).")
    else (result, s)
  rs

/-! ## `packages.dpkg.installed` run -/

/-- Result of `io.read_file` (the filesystem backend, external to the
sources): either the distinguishable `IO_ERROR` value or the file's text. -/
inductive ReadResult where
  | ioError
  | ok (content : List Char)
deriving DecidableEq, Repr

/-- Split a character list at every occurrence of `c` (the embedding of
`content.splitlines()` for newline-separated text; a trailing empty piece,
which Python's `splitlines` omits, is filtered away below by the
line-prefix filter and is therefore irrelevant). -/
def splitOnChar (c : Char) : List Char → List (List Char)
  | [] => [[]]
  | x :: xs =>
    match splitOnChar c xs with
    | [] => [[]]
    | y :: ys => if x = c then [] :: y :: ys else (x :: y) :: ys

/-- Python `line.startswith(pre)` on a character-list line. -/
def lineStarts (pre : String) (l : List Char) : Bool :=
  pre.toList.isPrefixOf l

/-- Python `pat in s` (substring containment) on character lists. -/
def hasInfix (pat : List Char) : List Char → Bool
  | [] => pat.isEmpty
  | x :: xs => pat.isPrefixOf (x :: xs) || hasInfix pat xs

/-- `zip(*[iter(lines)]*3)`: group a list into consecutive triples,
dropping a leftover of fewer than three elements. -/
def chunks3 {α : Type} : List α → List (α × α × α)
  | a :: b :: c :: rest => (a, b, c) :: chunks3 rest
  | _ => []

/-- One grouped entry of `Module.run` of `packages_dpkg_installed.py`
(lines 79-87): pick the `Package`/`Version`/`Status` lines of the triple
(an absent one raises IndexError in the source and skips the entry), take
the text after the first space of each, and keep the package exactly when
`'installed'` occurs in the status. -/
def dpkg_entry (e : List Char × List Char × List Char) : Option Pkg :=
  let lines := [e.1, e.2.1, e.2.2]
  match (lines.filter (lineStarts "Package")).head?,
        (lines.filter (lineStarts "Version")).head?,
        (lines.filter (lineStarts "Status")).head? with
  | some pl, some vl, some sl =>
    let pkg := (pyPartition ' ' pl).2.2
    let version := (pyPartition ' ' vl).2.2
    let status := (pyPartition ' ' sl).2.2
    if hasInfix "installed".toList status then
      some (Pkg.mk (String.mk pkg) none (String.mk version))
    else none
  | _, _, _ => none

/-- The parsing pipeline of `Module.run` of `packages_dpkg_installed.py`
(lines 77-87): filter the lines starting with `Package`/`Status`/`Version`,
group them into triples, and collect the installed packages. -/
def dpkg_parse (content : List Char) : List Pkg :=
  let lines := (splitOnChar '\x0a' content).filter
    (fun x => lineStarts "Package" x || lineStarts "Status" x || lineStarts "Version" x)
  (chunks3 lines).filterMap dpkg_entry

/-- `Module.run` of `packages_dpkg_installed.py` (lines 66-93): on
`IO_ERROR` log an error and return `None` without touching the scratch
store; otherwise parse the status file, write the full result list under
the TAG entry in one assignment (`tb[tag] = results`, line 89), optionally
log the count, and return `None`. The first component is the returned
value (`None` on every path, as the module never detaches work). -/
def packages_dpkg_installed_run (silent : Bool) (tag : String)
    (content : ReadResult) (s : FrameState) : Option Unit × FrameState :=
  match content with
  | .ioError => (none, logAdd s "Cannot read /var/lib/dpkg/status!")
  | .ok c =>
    let results := dpkg_parse c
    let s := tbSet s tag results
    let s := if silent then s
      else logAdd s (toString results.length ++ " packages revealed.")
    (none, s)

/-! ## `locasploit.update.vulnerabilities` run and its thread -/

/-- The `Thread` object of `locasploit_update_vulnerabilities.py` (lines
88-94): constructed with `silent` and `background`, `terminate` initially
false; `started` records whether Python's `Thread.start` has been called
(false at construction — `threading.Thread` does not start on
instantiation). -/
structure PyThread where
  silent : Bool
  background : Bool
  terminate : Bool
  started : Bool
deriving DecidableEq, Repr

/-- `Thread.__init__(silent, background)` (lines 89-94). -/
def Thread_init (silent background : Bool) : PyThread :=
  PyThread.mk silent background false false

/-- Oracle outcomes consumed by `Thread.run` of
`locasploit_update_vulnerabilities.py`: the `last_update` property of the
corpus (`none` standing for `DB_ERROR`), the day difference and current
year computed from wall-clock time, and the values returned by the `run`
of the three sub-modules `locasploit.update.cve`,
`locasploit.update.exploit` and `locasploit.cleanup` (absent from the
sources; per the spec each returns a handle to detached background work or
`None` when it completed synchronously). -/
structure UpdateEnv where
  lastUpdate : Option String
  daysSince : Nat
  nowYear : Nat
  jobCve : Option Nat
  jobExploit : Option Nat
  jobCleanup : Option Nat
deriving DecidableEq, Repr

/-- Python `+` applied to two optional job-id lists (`lucid + lue` in
`locasploit_update_vulnerabilities.py` line 127): list concatenation when
both are lists, an uncaught `TypeError` when either operand is `None`. -/
def pyAddOptList : Option (List Nat) → Option (List Nat) → Except String (List Nat)
  | some a, some b => Except.ok (a ++ b)
  | _, _ => Except.error "TypeError"

/-- The YEARS parameter value computed in `Thread.run` (lines 109-114):
`'Modified'` when the corpus was updated less than 8 days ago, otherwise
the space-joined years from 2002 to the current year. -/
def years_value (env : UpdateEnv) : String :=
  if env.lastUpdate ≠ none ∧ env.daysSince < 8 then "Modified"
  else String.intercalate " "
    (((List.range (env.nowYear + 1 - 2002)).map (fun i => toString (2002 + i))))

/-- `Thread.run` of `locasploit_update_vulnerabilities.py` (lines 97-127):
return immediately if terminated; propagate BACKGROUND and YEARS into the
sub-modules' parameters; run `locasploit.update.cve` and register its
handle when non-`None` (`lucid` is `None` otherwise); likewise
`locasploit.update.exploit` waiting on `lucid` (`lue`); run
`locasploit.cleanup` and register it waiting on `lucid + lue` — an
expression that raises an uncaught `TypeError` when either operand is
`None`, recorded in the second component together with the state reached
at that point (the cleanup registration then never happens). -/
def Thread_run (t : PyThread) (env : UpdateEnv) (s : FrameState) :
    FrameState × Option String :=
  if t.terminate then (s, none)
  else
    let bg := if t.background then "yes" else "no"
    let s := logAdd s ("Last update: "
      ++ (match env.lastUpdate with | none => "never" | some d => d))
    let s := setParam s "locasploit.update.cve" "BACKGROUND" bg
    let s := setParam s "locasploit.update.cve" "YEARS" (years_value env)
    let s := logAdd s ("Will update following years: " ++ years_value env)
    let lr : Option (List Nat) × FrameState :=
      match env.jobCve with
      | none => (none, s)
      | some h =>
        let r := schedAdd s "locasploit.update.cve" (some h) none none
        (some [r.1], r.2)
    let lucid := lr.1
    let s := lr.2
    let s := setParam s "locasploit.update.exploit" "BACKGROUND" bg
    let er : Option (List Nat) × FrameState :=
      match env.jobExploit with
      | none => (none, s)
      | some h =>
        let r := schedAdd s "locasploit.update.exploit" (some h) none lucid
        (some [r.1], r.2)
    let lue := er.1
    let s := er.2
    let s := setParam s "locasploit.cleanup" "BACKGROUND" bg
    match pyAddOptList lucid lue with
    | Except.error e => (s, some e)
    | Except.ok wf =>
      ((schedAdd s "locasploit.cleanup" env.jobCleanup none (some wf)).2, none)

/-- `Module.run` of `locasploit_update_vulnerabilities.py` (lines 74-85):
construct the thread; when BACKGROUND is positive return it as the handle
— without calling `start` on it; otherwise `start` it, `join` it (the
thread body runs to completion synchronously; an exception raised inside
the thread is confined to it) and return `None`. The second component is
the state/exception outcome of whatever part of the thread body ran. -/
def locasploit_update_vulnerabilities_run (silentP backgroundP : String)
    (env : UpdateEnv) (s : FrameState) :
    Option PyThread × (FrameState × Option String) :=
  let t := Thread_init (positive silentP) (positive backgroundP)
  if positive backgroundP then (some t, (s, none))
  else
    let t := { t with started := true }
    (none, Thread_run t env s)

/-- The empty process state, used for concrete instances. -/
def emptyState : FrameState :=
  FrameState.mk [] [] [] [] []

/-- A concrete environment for `Thread_run` in which both update
sub-modules completed synchronously (`run` returned `None`). -/
def env0 : UpdateEnv :=
  UpdateEnv.mk none 0 2016 none none none

/-! ## Theorems -/

@[simp] theorem logAdd_tb (s : FrameState) (m : String) : (logAdd s m).tb = s.tb := rfl

@[simp] theorem logAdd_db (s : FrameState) (m : String) : (logAdd s m).db = s.db := rfl

@[simp] theorem logAdd_jobs (s : FrameState) (m : String) : (logAdd s m).jobs = s.jobs := rfl

@[simp] theorem setParam_tb (s : FrameState) (a b c : String) :
    (setParam s a b c).tb = s.tb := rfl

@[simp] theorem setParam_db (s : FrameState) (a b c : String) :
    (setParam s a b c).db = s.db := rfl

@[simp] theorem setParam_jobs (s : FrameState) (a b c : String) :
    (setParam s a b c).jobs = s.jobs := rfl

@[simp] theorem tbSet_db (s : FrameState) (tag : String) (v : List Pkg) :
    (tbSet s tag v).db = s.db := rfl

@[simp] theorem schedAdd_fst (s : FrameState) (n : String) (h : Option Nat)
    (t : Option Nat) (w : Option (List Nat)) : (schedAdd s n h t w).1 = s.jobs.length := rfl

@[simp] theorem schedAdd_tb (s : FrameState) (n : String) (h : Option Nat)
    (t : Option Nat) (w : Option (List Nat)) : (schedAdd s n h t w).2.tb = s.tb := rfl

@[simp] theorem schedAdd_db (s : FrameState) (n : String) (h : Option Nat)
    (t : Option Nat) (w : Option (List Nat)) : (schedAdd s n h t w).2.db = s.db := rfl

@[simp] theorem schedAdd_jobs (s : FrameState) (n : String) (h : Option Nat)
    (t : Option Nat) (w : Option (List Nat)) :
    (schedAdd s n h t w).2.jobs = s.jobs ++ [SchedJob.mk n h t w] := rfl

/-- C1: for the version string `"0.9.8j-r13.0.4"` with `useEpoch = false`,
`get_accurate_version` returns `"0"` at accuracy `'major'`, `"0.9"` at
accuracy `'minor'`, and `"0.9.8j"` at accuracy `'build'`. -/
theorem truncation_examples_0_9_8j :
    get_accurate_version "major" "0.9.8j-r13.0.4".toList false = "0".toList
    ∧ get_accurate_version "minor" "0.9.8j-r13.0.4".toList false = "0.9".toList
    ∧ get_accurate_version "build" "0.9.8j-r13.0.4".toList false = "0.9.8j".toList := by
  decide

/-- C2: evaluation of the code at the failing input. The major component
of `"abc.1.2"` is not purely numeric, yet at accuracy `'minor'`
`get_accurate_version` returns the truncated `"abc.1"` instead of the full
post-epoch string `"abc.1.2"` — contradicting the module's own description
(`analysis_iot.py` line 66: "For non-standard versioning, full accuracy
will be used") and the spec's degradation rule. -/
theorem nonstandard_version_truncated_at_minor :
    pyIsdigit (pyPartition '.' "abc.1.2".toList).1 = false
    ∧ get_accurate_version "minor" "abc.1.2".toList false = "abc.1".toList
    ∧ "abc.1".toList ≠ "abc.1.2".toList := by
  decide

/-- C3 counterexample: `packages.dpkg.installed`'s `check` starts from
`CHECK_SUCCESS` (`packages_dpkg_installed.py` line 53), so on a Linux
system with a readable `/var/lib/dpkg/status` it returns `SUCCESS`, which
strictly exceeds `PROBABLY` — refuting the claim that every module's check
folds with `min` from the `PROBABLY` default and never exceeds it. -/
theorem dpkg_check_exceeds_probably :
    (packages_dpkg_installed_check true (DpkgCheckEnv.mk "linux" true) emptyState).1
      = Confidence.SUCCESS
    ∧ Confidence.PROBABLY.toNat < Confidence.SUCCESS.toNat := by
  decide

/-- C7 counterexample: with `BACKGROUND = 'yes'`, `run` of
`locasploit.update.vulnerabilities` returns the freshly constructed
`Thread` object without ever calling `start` on it
(`locasploit_update_vulnerabilities.py` lines 79-81), so the returned
handle has not started executing — refuting the claim that the unit has
already started by the time `run` returns. -/
theorem background_run_returns_unstarted_thread :
    (locasploit_update_vulnerabilities_run "no" "yes" env0 emptyState).1
      = some (Thread_init false true)
    ∧ (Thread_init false true).started = false := by
  decide

/-- C3 amended: `analysis.iot`'s check (and
`locasploit.update.vulnerabilities`'s) folds its precondition verdicts with
`min` starting from the `PROBABLY` default, hence never exceeds `PROBABLY`;
`packages.dpkg.installed`'s check instead starts from `SUCCESS` (degrading
to `UNLIKELY` for a non-Linux target and to `FAILURE` when the dpkg status
file is unreadable), so it can return `SUCCESS`. -/
theorem check_confidence_aggregation :
    (∀ (silent : Bool) (activeroot method target tmpdir accuracy extract : String)
        (env : IotCheckEnv) (s : FrameState),
      (analysis_iot_check silent activeroot method target tmpdir accuracy extract env s).1
        = cmin Confidence.PROBABLY (cmin
            (if method = "local" || method = "image" || method = "ssh" then
              Confidence.SUCCESS else Confidence.FAILURE)
            (cmin
              (if method = "image" then
                cmin env.ibeCheck
                  (if positive extract || negative extract then
                    Confidence.SUCCESS else Confidence.FAILURE)
              else if method = "ssh" then
                (if env.sshConnExists then Confidence.SUCCESS else Confidence.FAILURE)
              else if method = "local" then
                (if env.targetFileType = "d" then Confidence.SUCCESS else Confidence.FAILURE)
              else Confidence.SUCCESS)
              (if accuracy_supported accuracy then
                Confidence.SUCCESS else Confidence.FAILURE)))
      ∧ (analysis_iot_check silent activeroot method target tmpdir accuracy extract
          env s).1.toNat ≤ Confidence.PROBABLY.toNat)
    ∧ (∀ (silentParam background : String) (urllibOk : Bool) (s : FrameState),
      (locasploit_update_vulnerabilities_check silentParam background urllibOk s).1
        = cmin Confidence.PROBABLY (cmin
            (if positive background || negative background then
              Confidence.SUCCESS else Confidence.FAILURE)
            (if urllibOk then Confidence.SUCCESS else Confidence.FAILURE)))
    ∧ (∀ (silent : Bool) (env : DpkgCheckEnv) (s : FrameState),
      (packages_dpkg_installed_check silent env s).1
        = cmin Confidence.SUCCESS (cmin
            (if strStarts "lin" env.systemType then
              Confidence.SUCCESS else Confidence.UNLIKELY)
            (if env.canReadStatus then Confidence.SUCCESS else Confidence.FAILURE))) := by
  refine ⟨fun silent activeroot method target tmpdir accuracy extract env s => ?_,
    fun silentParam background urllibOk s => ?_, fun silent env s => ?_⟩
  · obtain ⟨ibe, ssh, ftype⟩ := env
    by_cases h2 : method = "image"
    · subst h2
      cases h3 : (positive extract || negative extract) <;>
        cases h8 : accuracy_supported accuracy <;> cases ibe <;>
          simp [analysis_iot_check, accuracy_tail, h3, h8, cmin, Confidence.toNat]
    · by_cases h4 : method = "ssh"
      · subst h4
        cases ssh <;> cases h8 : accuracy_supported accuracy <;>
          simp [analysis_iot_check, accuracy_tail, h8, cmin, Confidence.toNat]
      · by_cases h6 : method = "local"
        · subst h6
          by_cases h7 : ftype = "d" <;> cases h8 : accuracy_supported accuracy <;>
            simp [analysis_iot_check, accuracy_tail, h7, h8, cmin, Confidence.toNat]
        · cases h8 : accuracy_supported accuracy <;>
            simp [analysis_iot_check, accuracy_tail, h2, h4, h6, h8, cmin,
              Confidence.toNat]
  · cases h1 : (positive background || negative background) <;> cases urllibOk <;>
      simp [locasploit_update_vulnerabilities_check, h1, cmin, Confidence.toNat]
  · obtain ⟨sys, rd⟩ := env
    cases h1 : strStarts "lin" sys <;> cases rd <;>
      simp [packages_dpkg_installed_check, h1, cmin, Confidence.toNat]

/-- C9: for every parameter valuation and environment outcome, the `check`
of each of the three modules (`analysis.iot`, `packages.dpkg.installed`,
`locasploit.update.vulnerabilities`) leaves the scratch store `tb` and the
persistent corpus `db` unchanged; only logs and module parameters are
touched. -/
theorem checks_preserve_tb_and_db :
    (∀ (silent : Bool) (activeroot method target tmpdir accuracy extract : String)
        (env : IotCheckEnv) (s : FrameState),
      (analysis_iot_check silent activeroot method target tmpdir accuracy extract
          env s).2.tb = s.tb
      ∧ (analysis_iot_check silent activeroot method target tmpdir accuracy extract
          env s).2.db = s.db)
    ∧ (∀ (silent : Bool) (env : DpkgCheckEnv) (s : FrameState),
      (packages_dpkg_installed_check silent env s).2.tb = s.tb
      ∧ (packages_dpkg_installed_check silent env s).2.db = s.db)
    ∧ (∀ (silentParam background : String) (urllibOk : Bool) (s : FrameState),
      (locasploit_update_vulnerabilities_check silentParam background urllibOk s).2.tb
        = s.tb
      ∧ (locasploit_update_vulnerabilities_check silentParam background urllibOk s).2.db
        = s.db) := by
  refine ⟨fun silent activeroot method target tmpdir accuracy extract env s => ?_,
    fun silent env s => ?_, fun silentParam background urllibOk s => ?_⟩
  · obtain ⟨ibe, ssh, ftype⟩ := env
    by_cases h2 : method = "image"
    · subst h2
      cases h3 : (positive extract || negative extract) <;>
        cases h8 : accuracy_supported accuracy <;> cases silent <;>
          simp [analysis_iot_check, accuracy_tail, h3, h8]
    · by_cases h4 : method = "ssh"
      · subst h4
        cases ssh <;> cases h8 : accuracy_supported accuracy <;> cases silent <;>
          simp [analysis_iot_check, accuracy_tail, h8]
      · by_cases h6 : method = "local"
        · subst h6
          by_cases h7 : ftype = "d" <;> cases h8 : accuracy_supported accuracy <;>
            cases silent <;> simp [analysis_iot_check, accuracy_tail, h7, h8]
        · cases h8 : accuracy_supported accuracy <;> cases silent <;>
            simp [analysis_iot_check, accuracy_tail, h2, h4, h6, h8]
  · obtain ⟨sys, rd⟩ := env
    cases h1 : strStarts "lin" sys <;> cases rd <;> cases silent <;>
      simp [packages_dpkg_installed_check, h1]
  · cases h1 : (positive background || negative background) <;> cases urllibOk <;>
      cases h2 : positive silentParam <;>
        simp [locasploit_update_vulnerabilities_check, h1, h2]

theorem alias_for_group_names (k : List String) (packages : List Pkg) :
    (alias_for_group k packages).1 = (alias_for_group k packages).2.map Pkg.name := by
  induction packages with
  | nil => rfl
  | cons p ps ih =>
    by_cases h : p.name ∈ k <;> simp [alias_for_group, h, ih]

/-- C4: for each alias group, only the first observation in batch order
whose name belongs to the group triggers synthesis; the contribution of
the group is exactly one synthesized observation per other name of the
group, copying the triggering observation's variant and version (and is
independent of any later observations of the batch); and the names
returned for reporting are exactly the names of the synthesized
observations. -/
theorem alias_expansion_first_match :
    (∀ (k : List String) (pre post : List Pkg) (p : Pkg),
      p.name ∈ k → (∀ q ∈ pre, q.name ∉ k) →
      alias_for_group k (pre ++ p :: post)
        = (k.filter (fun x => x ≠ p.name),
           (k.filter (fun x => x ≠ p.name)).map (fun x => Pkg.mk x p.variant p.version)))
    ∧ ∀ (packages : List Pkg) (known : List (List String)),
      (get_alias_packages packages known).1
        = ((get_alias_packages packages known).2).map Pkg.name := by
  constructor
  · intro k pre post p hp
    induction pre with
    | nil =>
      intro _
      have hcomp : (Pkg.name ∘ fun x => Pkg.mk x p.variant p.version) = fun x => x := rfl
      simp [alias_for_group, hp, List.map_map, hcomp]
    | cons q pre ih =>
      intro hpre
      have hq : q.name ∉ k := hpre q (List.mem_cons_self q pre)
      simp only [List.cons_append, alias_for_group, if_neg hq]
      exact ih (fun r hr => hpre r (List.mem_cons_of_mem q hr))
  · intro packages known
    induction known with
    | nil => rfl
    | cons k ks ih =>
      simp only [get_alias_packages, List.map_append]
      rw [alias_for_group_names, ih]

/-- Witness for C4 at the spec's example: group `{kernel, linux_kernel}`,
batch `[("kernel", None, "4.4"), ("kernel", None, "4.4")]` — the first
`kernel` observation synthesizes exactly `("linux_kernel", None, "4.4")`,
the second triggers nothing more. -/
theorem alias_expansion_first_match_witness :
    alias_for_group ["kernel", "linux_kernel"]
        ([] ++ Pkg.mk "kernel" none "4.4" :: [Pkg.mk "kernel" none "4.4"])
      = (["kernel", "linux_kernel"].filter (fun x => x ≠ "kernel"),
         (["kernel", "linux_kernel"].filter (fun x => x ≠ "kernel")).map
           (fun x => Pkg.mk x none "4.4")) :=
  alias_expansion_first_match.1 ["kernel", "linux_kernel"] []
    [Pkg.mk "kernel" none "4.4"] (Pkg.mk "kernel" none "4.4") (by decide) (by simp)

/-- C5: at accuracy `'build'`, when the major component is purely numeric
and minor and build components exist, the result is assembled from the
original (non-hyphen-truncated) major and minor segments joined with the
hyphen-truncated build segment; concretely, `"1.2-x.3"` at build accuracy
yields `"1.2-x.3"` itself while minor accuracy yields `"1.2"`. -/
theorem build_accuracy_asymmetry :
    (∀ v : List Char, v.contains ':' = false →
      pyIsdigit (pyPartition '.' v).1 = true →
      (pyPartition '.' (pyPartition '.' v).2.2).1 ≠ [] →
      (pyPartition '.' (pyPartition '.' (pyPartition '.' v).2.2).2.2).1 ≠ [] →
      get_accurate_version "build" v false
        = (pyPartition '.' v).1 ++ '.' :: (pyPartition '.' (pyPartition '.' v).2.2).1
            ++ '.' :: (pyPartition '-'
              (pyPartition '.' (pyPartition '.' (pyPartition '.' v).2.2).2.2).1).1)
    ∧ get_accurate_version "build" "1.2-x.3".toList false = "1.2-x.3".toList
    ∧ get_accurate_version "minor" "1.2-x.3".toList false = "1.2".toList := by
  refine ⟨?_, by decide, by decide⟩
  intro v hcolon hdigit hminor hbuild
  have hmem : ':' ∉ v := by simpa using hcolon
  simp [get_accurate_version, epoch_fold, truncate_body, hmem, hdigit, hminor, hbuild]

/-- Witness for C5 at the concrete version `"1.2-x.3"`: major `"1"` is
numeric, minor `"2-x"` and build `"3"` exist, and build accuracy
reconstructs from the original minor segment `"2-x"`. -/
theorem build_accuracy_asymmetry_witness :
    get_accurate_version "build" "1.2-x.3".toList false
      = (pyPartition '.' "1.2-x.3".toList).1
          ++ '.' :: (pyPartition '.' (pyPartition '.' "1.2-x.3".toList).2.2).1
          ++ '.' :: (pyPartition '-'
            (pyPartition '.' (pyPartition '.'
              (pyPartition '.' "1.2-x.3".toList).2.2).2.2).1).1 :=
  build_accuracy_asymmetry.1 "1.2-x.3".toList (by decide) (by decide) (by decide)
    (by decide)

theorem map_colon_id (l : List Char) (h : ':' ∉ l) :
    l.map (fun c => if c = ':' then '.' else c) = l := by
  induction l with
  | nil => rfl
  | cons x xs ih =>
    have hx : ¬(x = ':') := fun e => h (e ▸ List.mem_cons_self x xs)
    have hxs : ':' ∉ xs := fun m => h (List.mem_cons_of_mem x m)
    simp [hx, ih hxs]

theorem pyPartition_of_append (c : Char) (pre post : List Char) (h : c ∉ pre) :
    pyPartition c (pre ++ c :: post) = (pre, [c], post) := by
  induction pre with
  | nil => simp [pyPartition]
  | cons x xs ih =>
    have hx : ¬(x = c) := fun e => h (e ▸ List.mem_cons_self x xs)
    have hxs : c ∉ xs := fun m => h (List.mem_cons_of_mem x m)
    simp [pyPartition, hx, ih hxs]

theorem contains_colon_append (pre post : List Char) :
    (pre ++ ':' :: post).contains ':' = true := by
  induction pre with
  | nil => simp [List.contains]
  | cons x xs ih => simp_all [List.contains]

/-- C6: the epoch fold of `get_accurate_version` — with `useEpoch = true`
the colon of a colon-delimited epoch prefix is replaced by a period, with
`useEpoch = false` everything up to and including the colon is discarded,
and at accuracy `'full'` the post-epoch string is returned unchanged; in
particular `truncate("2:1.0", full, epoch=true) = "2.1.0"` and
`truncate("2:1.0", full, epoch=false) = "1.0"`. -/
theorem epoch_fold_behavior :
    (∀ pre post : List Char, ':' ∉ pre → ':' ∉ post →
      get_accurate_version "full" (pre ++ ':' :: post) true = pre ++ '.' :: post
      ∧ get_accurate_version "full" (pre ++ ':' :: post) false = post)
    ∧ get_accurate_version "full" "2:1.0".toList true = "2.1.0".toList
    ∧ get_accurate_version "full" "2:1.0".toList false = "1.0".toList := by
  refine ⟨?_, by decide, by decide⟩
  intro pre post hpre hpost
  constructor
  · simp [get_accurate_version, epoch_fold, truncate_body, map_colon_id pre hpre,
      map_colon_id post hpost]
  · simp [get_accurate_version, epoch_fold, truncate_body, contains_colon_append,
      pyPartition_of_append ':' pre post hpre]

/-- Witness for C6 at `"2:1.0"` split as `"2" ++ ':' ++ "1.0"`. -/
theorem epoch_fold_behavior_witness :
    get_accurate_version "full" ("2".toList ++ ':' :: "1.0".toList) true
        = "2".toList ++ '.' :: "1.0".toList
    ∧ get_accurate_version "full" ("2".toList ++ ':' :: "1.0".toList) false
        = "1.0".toList :=
  epoch_fold_behavior.1 "2".toList "1.0".toList (by decide) (by decide)

/-- C7 amended: `run` of `locasploit.update.vulnerabilities` returns null
after executing the update thread's body synchronously (start + join) when
BACKGROUND is not positive (in particular when it is negative), and when
BACKGROUND is positive it returns a handle to a `Thread` object that has
NOT been started — starting the unit is left to whoever receives the
handle. -/
theorem run_background_semantics :
    ∀ (silentP backgroundP : String) (env : UpdateEnv) (s : FrameState),
      (positive backgroundP = false →
        locasploit_update_vulnerabilities_run silentP backgroundP env s
          = (none, Thread_run (PyThread.mk (positive silentP) false false true) env s))
      ∧ (positive backgroundP = true →
        locasploit_update_vulnerabilities_run silentP backgroundP env s
          = (some (Thread_init (positive silentP) true), (s, none))
        ∧ (Thread_init (positive silentP) true).started = false) := by
  intro sp bp env s
  constructor
  · intro h
    simp [locasploit_update_vulnerabilities_run, Thread_init, h]
  · intro h
    refine ⟨?_, rfl⟩
    simp [locasploit_update_vulnerabilities_run, Thread_init, h]

/-- Witness for C7's amended claim at `SILENT = 'no'` with
`BACKGROUND = 'no'` (synchronous path) and `BACKGROUND = 'yes'`
(handle to an unstarted thread). -/
theorem run_background_semantics_witness :
    (positive "no" = false
      ∧ locasploit_update_vulnerabilities_run "no" "no" env0 emptyState
          = (none, Thread_run (PyThread.mk (positive "no") false false true)
              env0 emptyState))
    ∧ (positive "yes" = true
      ∧ (locasploit_update_vulnerabilities_run "no" "yes" env0 emptyState
          = (some (Thread_init (positive "no") true), (emptyState, none))
        ∧ (Thread_init (positive "no") true).started = false)) :=
  ⟨⟨by decide, (run_background_semantics "no" "no" env0 emptyState).1 (by decide)⟩,
   ⟨by decide, (run_background_semantics "no" "yes" env0 emptyState).2 (by decide)⟩⟩

/-- C8: when reading `/var/lib/dpkg/status` yields the `IO_ERROR` value,
`run` of `packages.dpkg.installed` logs an error and returns null with the
scratch store (and corpus) completely unchanged — the TAG entry is never
created; on a successful read it returns null and the final scratch store
is exactly the input store with the TAG entry written once, in full, with
the parsed package list. -/
theorem dpkg_run_error_handling :
    ∀ (silent : Bool) (tag : String) (s : FrameState),
      (packages_dpkg_installed_run silent tag ReadResult.ioError s
          = (none, logAdd s "Cannot read /var/lib/dpkg/status!")
        ∧ (packages_dpkg_installed_run silent tag ReadResult.ioError s).2.tb = s.tb
        ∧ (packages_dpkg_installed_run silent tag ReadResult.ioError s).2.db = s.db)
      ∧ ∀ c, (packages_dpkg_installed_run silent tag (ReadResult.ok c) s).1 = none
        ∧ (packages_dpkg_installed_run silent tag (ReadResult.ok c) s).2.tb
            = (tbSet s tag (dpkg_parse c)).tb := by
  intro silent tag s
  refine ⟨⟨rfl, rfl, rfl⟩, fun c => ?_⟩
  cases silent <;> exact ⟨rfl, rfl⟩

/-- C10: in `Thread.run` of `locasploit.update.vulnerabilities`, whenever
the cve-update or exploit-update sub-module's `run` returns null, the
corresponding `lucid`/`lue` variable is `None` and the final registration's
`lucid + lue` raises an uncaught `TypeError`, so no cleanup job is ever
registered; the three-stage chain registers completely exactly when both
prior runs return non-null handles, with the exploit job waiting on the
cve job and the cleanup job waiting on both. -/
theorem thread_run_typeerror_chain :
    ∀ (t : PyThread) (env : UpdateEnv) (s : FrameState),
      t.terminate = false →
      ((env.jobCve = none ∨ env.jobExploit = none) →
        (Thread_run t env s).2 = some "TypeError"
        ∧ ((Thread_run t env s).1.jobs.filter
              (fun j => j.name == "locasploit.cleanup")).length
          = (s.jobs.filter (fun j => j.name == "locasploit.cleanup")).length)
      ∧ (∀ a b : Nat, env.jobCve = some a → env.jobExploit = some b →
        (Thread_run t env s).2 = none
        ∧ (Thread_run t env s).1.jobs
          = s.jobs
            ++ [SchedJob.mk "locasploit.update.cve" (some a) none none,
                SchedJob.mk "locasploit.update.exploit" (some b) none
                  (some [s.jobs.length]),
                SchedJob.mk "locasploit.cleanup" env.jobCleanup none
                  (some [s.jobs.length, s.jobs.length + 1])]) := by
  intro t env s ht
  obtain ⟨lu, ds, ny, jc, je, jcl⟩ := env
  constructor
  · intro hnone
    rcases jc with _ | a <;> rcases je with _ | b <;>
      simp_all [Thread_run, pyAddOptList, List.filter_append]
  · intro a b ha hb
    subst ha
    subst hb
    simp [Thread_run, ht, pyAddOptList]

/-- Witness for C10: with both sub-runs returning null (`env0`) the thread
body raises `TypeError` and registers no cleanup job; with both returning
handles the full three-stage chain is registered with the documented
`waitfor` links. -/
theorem thread_run_typeerror_chain_witness :
    ((Thread_run (Thread_init false true) env0 emptyState).2 = some "TypeError"
      ∧ ((Thread_run (Thread_init false true) env0 emptyState).1.jobs.filter
            (fun j => j.name == "locasploit.cleanup")).length
        = (emptyState.jobs.filter (fun j => j.name == "locasploit.cleanup")).length)
    ∧ ((Thread_run (Thread_init false true)
          (UpdateEnv.mk (some "2016-01-01") 20 2016 (some 7) (some 8) none)
          emptyState).2 = none
      ∧ (Thread_run (Thread_init false true)
          (UpdateEnv.mk (some "2016-01-01") 20 2016 (some 7) (some 8) none)
          emptyState).1.jobs
        = emptyState.jobs
          ++ [SchedJob.mk "locasploit.update.cve" (some 7) none none,
              SchedJob.mk "locasploit.update.exploit" (some 8) none
                (some [emptyState.jobs.length]),
              SchedJob.mk "locasploit.cleanup" none none
                (some [emptyState.jobs.length, emptyState.jobs.length + 1])]) :=
  ⟨(thread_run_typeerror_chain (Thread_init false true) env0 emptyState rfl).1
      (Or.inl rfl),
   (thread_run_typeerror_chain (Thread_init false true)
      (UpdateEnv.mk (some "2016-01-01") 20 2016 (some 7) (some 8) none)
      emptyState rfl).2 7 8 rfl rfl⟩

end Locasploit
